import Mathlib

/-!
Shallow embedding of the asynchronous task-callback bridge of the
`video_generator` backend:

* `backend/app/services/task_manager.py` — `TaskResult` and `TaskManager`
  (registry create / complete / fail / remove / cleanup, and `wait`);
* `backend/app/api/webhooks.py` — the Kie.ai callback receiver
  (`kie_callback`), in particular its field-name normalization;
* `backend/app/services/imagen.py` — the dual-path completion strategy of
  `_generate_with_nano_banana_pro` (callback-URL plausibility check,
  payload construction, wait-then-poll vs. poll-only).

Python dictionaries are modelled as association lists with unique keys
(uniqueness is exactly what the duplicate check of `create_task` maintains),
`Optional[...]` values as `Option`, exceptions as explicit outcome
constructors, and `datetime` arithmetic as integers.  `wait` is modelled
as a pure observation of the task state at the moment the waiter is woken
(or the timeout fires): `asyncio.Event` is a broadcast primitive, so every
waiter woken by `event.set()` reads the same `result`/`error` fields.
-/

namespace VG

/-- Association-list lookup, first match wins; models Python `dict` lookup
(keys are unique in every reachable registry state). -/
def lookup {β : Type _} (id : String) : List (String × β) → Option β
  | [] => none
  | (k, v) :: rest => if k = id then some v else lookup id rest

/-- Embeds `TaskResult.__init__` state: `event` is the `asyncio.Event`
(`true` once set), `result`/`error` start `None`, `completed` starts
`False`. -/
structure TaskResult (V E : Type) where
  task_id : String
  event : Bool
  result : Option V
  error : Option E
  created_at : Int
  completed : Bool
deriving DecidableEq

/-- Outcome of a `TaskResult.wait` call: suspend forever (no timeout and
no resolution), raise `TimeoutError`, raise the stored error, or return
the stored result. -/
inductive WaitOutcome (V E : Type) where
  | blocks
  | timedOut
  | raised (e : E)
  | returned (v : Option V)
deriving DecidableEq

/-- Embeds `TaskResult.__init__(task_id)`. -/
def TaskResult.init (V E : Type) (task_id : String) (now : Int) : TaskResult V E :=
  { task_id := task_id, event := false, result := none, error := none,
    created_at := now, completed := false }

/-- Embeds `TaskResult.wait(timeout)`: if the event is set,
`asyncio.wait_for` returns immediately and the stored error (checked
first) is raised, else the stored result is returned; if the event is not
set and no resolution arrives, a finite timeout raises `TimeoutError`
and `timeout=None` suspends forever. -/
def TaskResult.wait {V E : Type} (t : TaskResult V E) (timeout : Option Nat) :
    WaitOutcome V E :=
  if t.event then
    match t.error with
    | some e => WaitOutcome.raised e
    | none => WaitOutcome.returned t.result
  else
    match timeout with
    | some _ => WaitOutcome.timedOut
    | none => WaitOutcome.blocks

/-- Embeds `TaskResult.set_result`: unconditionally stores the result,
marks completed, sets the event. -/
def TaskResult.set_result {V E : Type} (t : TaskResult V E) (r : V) : TaskResult V E :=
  { t with result := some r, completed := true, event := true }

/-- Embeds `TaskResult.set_error`: unconditionally stores the error,
marks completed, sets the event. -/
def TaskResult.set_error {V E : Type} (t : TaskResult V E) (e : E) : TaskResult V E :=
  { t with error := some e, completed := true, event := true }

/-- The `TaskManager._tasks` dictionary. -/
def Registry (V E : Type) : Type := List (String × TaskResult V E)

/-- Registry keys are pairwise distinct — the invariant a Python `dict`
provides by construction. -/
def NodupKeys {V E : Type} (reg : Registry V E) : Prop :=
  (reg.map Prod.fst).Nodup

instance {V E : Type} (reg : Registry V E) : Decidable (NodupKeys reg) :=
  List.nodupDecidable _

/-- Embeds `TaskManager.create_task`: raises `ValueError` on a duplicate
`task_id`, otherwise inserts a fresh unresolved `TaskResult` and returns
it. -/
def create_task {V E : Type} (reg : Registry V E) (id : String) (now : Int) :
    Except String (TaskResult V E × Registry V E) :=
  match lookup id reg with
  | some _ => Except.error ("Task " ++ id ++ " already exists")
  | none =>
    let t := TaskResult.init V E id now
    Except.ok (t, (id, t) :: reg)

/-- Replace the entry stored under `id` (first occurrence; keys are
unique), modelling in-place mutation of the object held by the dict. -/
def setTask {V E : Type} : Registry V E → String → (TaskResult V E → TaskResult V E) →
    Registry V E
  | [], _, _ => []
  | (k, t) :: rest, id, f =>
    if k = id then (k, f t) :: rest else (k, t) :: setTask rest id f

/-- Embeds `TaskManager.complete_task`: `set_result` on the entry when
present; on an unknown id, leaves the registry unchanged and logs a
warning (the `Bool` component, `true` when the warning fires).  Total —
never raises to the caller. -/
def complete_task {V E : Type} (reg : Registry V E) (id : String) (v : V) :
    Registry V E × Bool :=
  match lookup id reg with
  | some _ => (setTask reg id (fun t => t.set_result v), false)
  | none => (reg, true)

/-- Embeds `TaskManager.fail_task`: `set_error` on the entry when present;
unknown-id tolerance identical to `complete_task`. -/
def fail_task {V E : Type} (reg : Registry V E) (id : String) (e : E) :
    Registry V E × Bool :=
  match lookup id reg with
  | some _ => (setTask reg id (fun t => t.set_error e), false)
  | none => (reg, true)

/-- Embeds `TaskManager.remove_task`: delete the entry if present
(first occurrence; keys are unique), no-op otherwise. -/
def remove_task {V E : Type} : Registry V E → String → Registry V E
  | [], _ => []
  | (k, t) :: rest, id =>
    if k = id then rest else (k, t) :: remove_task rest id

/-- Embeds `TaskManager._cleanup(max_age_hours)`: compute the cutoff,
collect the ids of entries that are both older than the cutoff and
completed, and remove each of them. -/
def cleanup_run {V E : Type} (reg : Registry V E) (now maxAge : Int) : Registry V E :=
  let cutoff := now - maxAge
  let to_remove :=
    (reg.filter (fun p => decide (p.2.created_at < cutoff) && p.2.completed)).map Prod.fst
  to_remove.foldl remove_task reg

/-! Callback receiver (`backend/app/api/webhooks.py`, `kie_callback`). -/

/-- Python truthiness on an optional string: `None` and `""` are falsy. -/
def pyTruthy : Option String → Bool
  | none => false
  | some s => if s = "" then false else true

/-- Python `a or b` on optional strings: the left operand when truthy,
else the right operand. -/
def pyOr (a b : Option String) : Option String :=
  if pyTruthy a then a else b

/-- Embeds the `KieCallbackPayload` pydantic model: every field optional,
with both camelCase and snake_case variants; `data` is the nested wrapper
dictionary (string-valued fields, modelled as an association list). -/
structure KieCallbackPayload where
  taskId : Option String := none
  task_id : Option String := none
  state : Option String := none
  resultJson : Option String := none
  result_json : Option String := none
  failMsg : Option String := none
  fail_msg : Option String := none
  failCode : Option String := none
  fail_code : Option String := none
  code : Option Int := none
  msg : Option String := none
  data : Option (List (String × String)) := none
deriving DecidableEq

/-- The five logical values `kie_callback` extracts before dispatching to
`handle_kie_callback`. -/
structure NormalizedCallback where
  task_id : Option String
  state : Option String
  result_json_str : Option String
  fail_msg : Option String
  fail_code : Option String
deriving DecidableEq

/-- Python truthiness of the nested `data` dict: `None` and `{}` are
falsy. -/
def dataTruthy : Option (List (String × String)) → Bool
  | none => false
  | some d => !d.isEmpty

/-- Embeds webhooks.py lines 81-94: camelCase variant `or` snake_case
variant for each field, then — only when `payload.data` is truthy — fall
back to the nested dict (camelCase key first) for each field still
falsy. -/
def normalizeKieCallback (p : KieCallbackPayload) : NormalizedCallback :=
  let task_id := pyOr p.taskId p.task_id
  let state := p.state
  let result_json_str := pyOr p.resultJson p.result_json
  let fail_msg := pyOr p.failMsg p.fail_msg
  let fail_code := pyOr p.failCode p.fail_code
  if dataTruthy p.data then
    let d := p.data.getD []
    { task_id := pyOr (pyOr task_id (lookup "taskId" d)) (lookup "task_id" d)
      state := pyOr state (lookup "state" d)
      result_json_str :=
        pyOr (pyOr result_json_str (lookup "resultJson" d)) (lookup "result_json" d)
      fail_msg := pyOr (pyOr fail_msg (lookup "failMsg" d)) (lookup "fail_msg" d)
      fail_code := pyOr (pyOr fail_code (lookup "failCode" d)) (lookup "fail_code" d) }
  else
    { task_id := task_id, state := state, result_json_str := result_json_str,
      fail_msg := fail_msg, fail_code := fail_code }

/-- What the ingress layer can observe about a POST to `/kie-callback`:
whether FastAPI auto-parsed a payload, whether `KieCallbackPayload(**body)`
succeeds on the raw JSON body, whether the body has a `"data"` key, and
whether `KieCallbackPayload(**body["data"])` succeeds. -/
structure RawKieRequest where
  autoParsed : Option KieCallbackPayload
  bodyParses : Option KieCallbackPayload
  hasDataKey : Bool
  dataParses : Option KieCallbackPayload
deriving DecidableEq

/-- Embeds webhooks.py lines 63-79: the payload actually used, or `none`
when every parse path fails (each failure branch raises
`HTTPException(400)`). -/
def resolvePayload (r : RawKieRequest) : Option KieCallbackPayload :=
  match r.autoParsed with
  | some p => some p
  | none =>
    match r.bodyParses with
    | some p => some p
    | none => if r.hasDataKey then r.dataParses else none

/-- Response of the `kie_callback` handler: an `HTTPException` propagated
out of the handler, or a JSON acknowledgement returned with HTTP 200. -/
inductive KieResponse where
  | httpError (status : Nat)
  | ack (status : String) (message : String)
deriving DecidableEq

/-- Embeds the `kie_callback` POST handler (webhooks.py lines 63-125):
unparseable body → `HTTPException(400)` re-raised by the
`except HTTPException: raise` arm; missing/empty task id → 200
acknowledgement with status `"error"`; an exception raised by
`handle_kie_callback` (the Boolean parameter) → caught by the generic
`except` arm, 200 acknowledgement with status `"error"`; otherwise a 200
success acknowledgement. -/
def kie_callback (r : RawKieRequest) (handleKieCallbackRaises : Bool) : KieResponse :=
  match resolvePayload r with
  | none => KieResponse.httpError 400
  | some p =>
    let n := normalizeKieCallback p
    if pyTruthy n.task_id = false then
      KieResponse.ack "error" "Missing taskId in callback"
    else if handleKieCallbackRaises then
      KieResponse.ack "error" "Error processing callback"
    else
      KieResponse.ack "success" "Callback processed"

/-! Dual-path completion strategy
(`backend/app/services/imagen.py`, `_generate_with_nano_banana_pro`). -/

/-- Character-list version of Python `str.startswith`. -/
def listStartsWith : List Char → List Char → Bool
  | [], _ => true
  | _ :: _, [] => false
  | c :: cs, d :: ds => c = d && listStartsWith cs ds

/-- Does `needle` occur contiguously inside the list? -/
def listContainsSub (needle : List Char) : List Char → Bool
  | [] => needle.isEmpty
  | c :: cs => listStartsWith needle (c :: cs) || listContainsSub needle cs

/-- Python `needle in hay` on strings. -/
def strContains (hay needle : String) : Bool :=
  listContainsSub needle.toList hay.toList

/-- Python `str.lower()` (character-wise, as for the ASCII hosts and URLs
compared here). -/
def pyLower (s : String) : String :=
  String.mk (s.toList.map Char.toLower)

/-- Embeds imagen.py line 411: the callback URL is considered publicly
reachable exactly when none of the loopback hosts occurs in the
lowercased backend URL. -/
def use_callback (backend_url : String) : Bool :=
  !(["localhost", "127.0.0.1", "0.0.0.0"].any
      (fun host => strContains (pyLower backend_url) host))

/-- The slice of the Kie.ai `createTask` request payload the dual-path
strategy controls (imagen.py lines 464-471): `callBackUrl` is present
exactly when `use_callback` holds. -/
structure KieCreateTaskPayload where
  model : String
  callBackUrl : Option String
deriving DecidableEq

/-- Embeds imagen.py lines 464-471: build the payload, adding
`callBackUrl` only when the callback URL is publicly accessible. -/
def buildCreateTaskPayload (useCb : Bool) (callback_url : String) : KieCreateTaskPayload :=
  { model := "nano-banana-pro",
    callBackUrl := if useCb then some callback_url else none }

/-- The two completion mechanisms of the dual-path strategy. -/
inductive CompletionStep where
  | registryWaitStep
  | pollStep
deriving DecidableEq

/-- Embeds imagen.py lines 542-577: with callbacks enabled, create a
registry entry and wait first, falling back to polling only when the wait
times out; with callbacks disabled, poll immediately and never touch the
registry. -/
def completionSteps (useCb : Bool) (waitTimedOut : Bool) : List CompletionStep :=
  if useCb then
    if waitTimedOut then [CompletionStep.registryWaitStep, CompletionStep.pollStep]
    else [CompletionStep.registryWaitStep]
  else [CompletionStep.pollStep]

/-! Helper lemmas about the registry embedding. -/

theorem lookup_eq_none_of_not_mem {β : Type _} {reg : List (String × β)} {x : String}
    (h : x ∉ reg.map Prod.fst) : lookup x reg = none := by
  induction reg with
  | nil => rfl
  | cons hd tl ih =>
    obtain ⟨k, v⟩ := hd
    simp only [List.map_cons, List.mem_cons] at h
    push_neg at h
    simp only [lookup]
    rw [if_neg (fun hk => h.1 hk.symm)]
    exact ih h.2

theorem mem_of_lookup_eq_some {β : Type _} {reg : List (String × β)} {x : String} {v : β}
    (h : lookup x reg = some v) : (x, v) ∈ reg := by
  induction reg with
  | nil => simp [lookup] at h
  | cons hd tl ih =>
    obtain ⟨k, w⟩ := hd
    simp only [lookup] at h
    by_cases hk : k = x
    · rw [if_pos hk] at h
      subst hk
      simp [Option.some.injEq] at h
      simp [h]
    · rw [if_neg hk] at h
      exact List.mem_cons_of_mem _ (ih h)

theorem lookup_eq_some_of_mem {β : Type _} {reg : List (String × β)} {x : String} {v : β}
    (hnd : (reg.map Prod.fst).Nodup) (h : (x, v) ∈ reg) : lookup x reg = some v := by
  induction reg with
  | nil => simp at h
  | cons hd tl ih =>
    obtain ⟨k, w⟩ := hd
    simp only [List.map_cons, List.nodup_cons] at hnd
    rcases List.mem_cons.mp h with h1 | h1
    · obtain ⟨hk, hv⟩ := Prod.mk.injEq .. ▸ h1
      simp only [Prod.mk.injEq] at h1
      simp [lookup, h1.1, h1.2]
    · simp only [lookup]
      by_cases hk : k = x
      · subst hk
        exact absurd (List.mem_map.mpr ⟨(k, v), h1, rfl⟩) hnd.1
      · rw [if_neg hk]
        exact ih hnd.2 h1

theorem keys_remove_task_subset {V E : Type} (reg : Registry V E) (id x : String)
    (h : x ∈ (remove_task reg id).map Prod.fst) : x ∈ reg.map Prod.fst := by
  induction reg with
  | nil => simp [remove_task] at h
  | cons hd tl ih =>
    obtain ⟨k, t⟩ := hd
    simp only [remove_task] at h
    by_cases hk : k = id
    · rw [if_pos hk] at h
      simp only [List.map_cons, List.mem_cons]
      exact Or.inr h
    · rw [if_neg hk] at h
      simp only [List.map_cons, List.mem_cons] at h ⊢
      rcases h with h | h
      · exact Or.inl h
      · exact Or.inr (ih h)

theorem nodup_remove_task {V E : Type} {reg : Registry V E} (id : String)
    (h : NodupKeys reg) : NodupKeys (remove_task reg id) := by
  induction reg with
  | nil => simpa [remove_task] using h
  | cons hd tl ih =>
    obtain ⟨k, t⟩ := hd
    simp only [NodupKeys, List.map_cons, List.nodup_cons] at h
    simp only [remove_task]
    by_cases hk : k = id
    · rw [if_pos hk]
      exact h.2
    · rw [if_neg hk]
      simp only [NodupKeys, List.map_cons, List.nodup_cons]
      exact ⟨fun hm => h.1 (keys_remove_task_subset tl id k hm), ih h.2⟩

theorem lookup_remove_task {V E : Type} {reg : Registry V E} (hnd : NodupKeys reg)
    (x id : String) :
    lookup x (remove_task reg id) = if x = id then none else lookup x reg := by
  induction reg with
  | nil => simp [remove_task, lookup]
  | cons hd tl ih =>
    obtain ⟨k, t⟩ := hd
    simp only [NodupKeys, List.map_cons, List.nodup_cons] at hnd
    simp only [remove_task]
    by_cases hk : k = id
    · rw [if_pos hk]
      subst hk
      by_cases hx : x = k
      · subst hx
        rw [if_pos rfl]
        exact lookup_eq_none_of_not_mem hnd.1
      · rw [if_neg hx]
        simp only [lookup]
        rw [if_neg (fun hkx => hx hkx.symm)]
    · rw [if_neg hk]
      simp only [lookup]
      by_cases hx : k = x
      · subst hx
        rw [if_pos rfl, if_neg (fun h => hk h), if_pos rfl]
      · rw [if_neg hx, if_neg hx, ih hnd.2]

theorem nodup_foldl_remove {V E : Type} (ids : List String) (reg : Registry V E)
    (h : NodupKeys reg) : NodupKeys (ids.foldl remove_task reg) := by
  induction ids generalizing reg with
  | nil => exact h
  | cons i ids ih =>
    simp only [List.foldl_cons]
    exact ih _ (nodup_remove_task i h)

theorem lookup_foldl_remove {V E : Type} (ids : List String) (reg : Registry V E)
    (hnd : NodupKeys reg) (x : String) :
    lookup x (ids.foldl remove_task reg) = if x ∈ ids then none else lookup x reg := by
  induction ids generalizing reg with
  | nil => simp
  | cons i ids ih =>
    simp only [List.foldl_cons]
    rw [ih _ (nodup_remove_task i hnd), lookup_remove_task hnd]
    by_cases hx : x ∈ ids
    · simp [hx]
    · by_cases hxi : x = i <;> simp [hx, hxi]

theorem lookup_setTask_self {V E : Type} (reg : Registry V E) (id : String)
    (f : TaskResult V E → TaskResult V E) :
    lookup id (setTask reg id f) = (lookup id reg).map f := by
  induction reg with
  | nil => rfl
  | cons hd tl ih =>
    obtain ⟨k, t⟩ := hd
    simp only [setTask]
    by_cases hk : k = id
    · rw [if_pos hk]
      simp [lookup, hk]
    · rw [if_neg hk]
      simp only [lookup]
      rw [if_neg hk, if_neg hk, ih]

theorem lookup_setTask_other {V E : Type} (reg : Registry V E) (id x : String)
    (hx : x ≠ id) (f : TaskResult V E → TaskResult V E) :
    lookup x (setTask reg id f) = lookup x reg := by
  induction reg with
  | nil => rfl
  | cons hd tl ih =>
    obtain ⟨k, t⟩ := hd
    simp only [setTask]
    by_cases hk : k = id
    · subst hk
      rw [if_pos rfl]
      simp only [lookup]
      rw [if_neg (fun h => hx h.symm), if_neg (fun h => hx h.symm)]
    · rw [if_neg hk]
      simp only [lookup]
      by_cases hkx : k = x
      · rw [if_pos hkx, if_pos hkx]
      · rw [if_neg hkx, if_neg hkx, ih]

theorem pyTruthy_some {s : String} (h : s ≠ "") : pyTruthy (some s) = true := by
  simp [pyTruthy, h]

theorem pyOr_truthy {a : Option String} (h : pyTruthy a = true) (b : Option String) :
    pyOr a b = a := by
  simp [pyOr, h]

theorem pyOr_falsy {a : Option String} (h : pyTruthy a = false) (b : Option String) :
    pyOr a b = b := by
  simp [pyOr, h]

/-! Claim theorems. -/

/-- C1: for every task resolved via `complete(t, payload)` (on which no
`fail` has stored an error), every `wait()` call — every waiter woken by
the broadcast event reads the same resolved state, and later `wait` calls
read it too — returns that same payload, for every timeout argument
(hence immediately, never blocking or timing out); and for every task
resolved via `fail(t, err)`, every `wait()` call raises that same stored
error. -/
theorem wait_broadcast_after_resolution {V E : Type} (reg : Registry V E) (id : String)
    (t : TaskResult V E) (v : V) (e : E) (h : lookup id reg = some t) :
    (t.error = none → ∀ timeout, ∃ t', lookup id (complete_task reg id v).1 = some t'
        ∧ t'.wait timeout = WaitOutcome.returned (some v))
    ∧ (∀ timeout, ∃ t', lookup id (fail_task reg id e).1 = some t'
        ∧ t'.wait timeout = WaitOutcome.raised e) := by
  constructor
  · intro herr timeout
    refine ⟨t.set_result v, ?_, ?_⟩
    · simp only [complete_task, h]
      rw [lookup_setTask_self, h]
      rfl
    · simp [TaskResult.wait, TaskResult.set_result, herr]
  · intro timeout
    refine ⟨t.set_error e, ?_, ?_⟩
    · simp only [fail_task, h]
      rw [lookup_setTask_self, h]
      rfl
    · simp [TaskResult.wait, TaskResult.set_error]

/-- Witness for C1 at the concrete task `"t1"` with payload `"pay"` and
error `"err"`. -/
theorem wait_broadcast_after_resolution_witness :
    ((TaskResult.init String String "t1" 0).error = none → ∀ timeout, ∃ t',
        lookup "t1" (complete_task [("t1", TaskResult.init String String "t1" 0)] "t1" "pay").1
          = some t'
        ∧ t'.wait timeout = WaitOutcome.returned (some "pay"))
    ∧ (∀ timeout, ∃ t',
        lookup "t1" (fail_task [("t1", TaskResult.init String String "t1" 0)] "t1" "err").1
          = some t'
        ∧ t'.wait timeout = WaitOutcome.raised "err") :=
  wait_broadcast_after_resolution [("t1", TaskResult.init String String "t1" 0)] "t1"
    (TaskResult.init String String "t1" 0) "pay" "err" (by decide)

/-- C2 counterexample: resolution is not write-once.  After
`complete("t", "a")` has resolved the task, a second `complete("t", "b")`
mutates the stored result from `"a"` to `"b"` — refuting the claim that
no subsequent `complete` call mutates the stored result again. -/
theorem resolution_not_write_once :
    ((lookup "t" (complete_task
        [("t", TaskResult.init String String "t" 0)] "t" "a").1).map
        (fun u => u.result) = some (some "a"))
    ∧ ((lookup "t" (complete_task (complete_task
        [("t", TaskResult.init String String "t" 0)] "t" "a").1 "t" "b").1).map
        (fun u => u.result) = some (some "b"))
    ∧ (some (some "b") : Option (Option String)) ≠ some (some "a") := by
  decide

/-- C2 amended: resolution is last-writer-wins, not write-once.
`set_result`/`set_error` overwrite the stored result/error
unconditionally — also on an already-resolved task — and mark the task
completed; only the completion signal is idempotent: after any
`set_result` or `set_error` the event is set, so once fired it stays
fired. -/
theorem resolution_overwrites {V E : Type} (t : TaskResult V E) (v : V) (e : E) :
    ((t.set_result v).result = some v ∧ (t.set_result v).completed = true
      ∧ (t.set_result v).event = true)
    ∧ ((t.set_error e).error = some e ∧ (t.set_error e).completed = true
      ∧ (t.set_error e).event = true) :=
  ⟨⟨rfl, rfl, rfl⟩, ⟨rfl, rfl, rfl⟩⟩

/-- C3: `wait(timeout=X)` on an unresolved task raises the timeout
outcome, which is distinct from every task-failure outcome; the wait has
no effect on the registry, whose entry is still present and unresolved;
and a `complete(t, payload)` issued after the timeout stores the payload
in the entry, so that a fresh `wait()` returns it. -/
theorem wait_timeout_then_late_complete {V E : Type} (reg : Registry V E) (id : String)
    (t : TaskResult V E) (v : V) (x : Nat)
    (h : lookup id reg = some t) (hev : t.event = false) (herr : t.error = none) :
    t.wait (some x) = WaitOutcome.timedOut
    ∧ (∀ e : E, (WaitOutcome.timedOut : WaitOutcome V E) ≠ WaitOutcome.raised e)
    ∧ lookup id reg = some t
    ∧ ∃ t', lookup id (complete_task reg id v).1 = some t'
        ∧ t'.result = some v
        ∧ ∀ timeout, t'.wait timeout = WaitOutcome.returned (some v) := by
  refine ⟨?_, ?_, h, ?_⟩
  · simp [TaskResult.wait, hev]
  · intro e hcon
    exact WaitOutcome.noConfusion hcon
  · refine ⟨t.set_result v, ?_, rfl, ?_⟩
    · simp only [complete_task, h]
      rw [lookup_setTask_self, h]
      rfl
    · intro timeout
      simp [TaskResult.wait, TaskResult.set_result, herr]

/-- Witness for C3 at the concrete task `"t1"` with late payload
`"late"` and timeout 1. -/
theorem wait_timeout_then_late_complete_witness :
    (TaskResult.init String String "t1" 0).wait (some 1) = WaitOutcome.timedOut
    ∧ (∀ e : String,
        (WaitOutcome.timedOut : WaitOutcome String String) ≠ WaitOutcome.raised e)
    ∧ lookup "t1" [("t1", TaskResult.init String String "t1" 0)]
        = some (TaskResult.init String String "t1" 0)
    ∧ ∃ t', lookup "t1"
          (complete_task [("t1", TaskResult.init String String "t1" 0)] "t1" "late").1
          = some t'
        ∧ t'.result = some "late"
        ∧ ∀ timeout, t'.wait timeout = WaitOutcome.returned (some "late") :=
  wait_timeout_then_late_complete [("t1", TaskResult.init String String "t1" 0)] "t1"
    (TaskResult.init String String "t1" 0) "late" 1 (by decide) rfl rfl

/-- C4: a first `create(t)` on an absent id inserts a new unresolved
entry and returns it; a second `create(t)` without an intervening
`remove(t)` raises the duplicate-key `ValueError` instead of overwriting
the entry. -/
theorem create_task_duplicate_fails {V E : Type} (reg : Registry V E) (id : String)
    (now now' : Int) (h : lookup id reg = none) :
    ∃ t reg', create_task (V := V) (E := E) reg id now = Except.ok (t, reg')
      ∧ lookup id reg' = some t
      ∧ t.event = false ∧ t.result = none ∧ t.error = none ∧ t.completed = false
      ∧ create_task reg' id now' = Except.error ("Task " ++ id ++ " already exists") := by
  refine ⟨TaskResult.init V E id now, (id, TaskResult.init V E id now) :: reg,
    ?_, ?_, rfl, rfl, rfl, rfl, ?_⟩
  · simp [create_task, h]
  · simp [lookup]
  · simp [create_task, lookup]

/-- Witness for C4 on the empty registry with id `"t1"`. -/
theorem create_task_duplicate_fails_witness :
    ∃ t reg', create_task (V := String) (E := String) [] "t1" 0 = Except.ok (t, reg')
      ∧ lookup "t1" reg' = some t
      ∧ t.event = false ∧ t.result = none ∧ t.error = none ∧ t.completed = false
      ∧ create_task reg' "t1" 7 = Except.error ("Task " ++ "t1" ++ " already exists") :=
  create_task_duplicate_fails [] "t1" 0 7 rfl

/-- C5: `complete` and `fail` on an id absent from the registry never
raise (they are total), create no entry and leave the mapping unchanged;
the `true` component records that only a warning is logged. -/
theorem unknown_task_tolerated {V E : Type} (reg : Registry V E) (id : String)
    (v : V) (e : E) (h : lookup id reg = none) :
    complete_task reg id v = (reg, true) ∧ fail_task reg id e = (reg, true) := by
  simp [complete_task, fail_task, h]

/-- Witness for C5: `complete("ghost")` and `fail("ghost")` on the empty
registry. -/
theorem unknown_task_tolerated_witness :
    complete_task ([] : Registry String String) "ghost" "pay" = ([], true)
    ∧ fail_task ([] : Registry String String) "ghost" "err" = ([], true) :=
  unknown_task_tolerated [] "ghost" "pay" "err" rfl

/-- C6: one reaper pass removes exactly the entries that are both
completed and older than the cutoff: an entry survives the pass (with its
state unchanged) iff it was present before and is not both old and
completed. -/
theorem cleanup_removes_exactly_resolved_old {V E : Type} (reg : Registry V E)
    (now maxAge : Int) (hnd : NodupKeys reg) (x : String) (t : TaskResult V E) :
    lookup x (cleanup_run reg now maxAge) = some t ↔
      lookup x reg = some t ∧ ¬(t.created_at < now - maxAge ∧ t.completed = true) := by
  simp only [cleanup_run]
  rw [lookup_foldl_remove _ _ hnd]
  by_cases hmem : x ∈ (reg.filter
      (fun p => decide (p.2.created_at < now - maxAge) && p.2.completed)).map Prod.fst
  · rw [if_pos hmem]
    constructor
    · intro hcon
      exact absurd hcon (by simp)
    · rintro ⟨hl, hnc⟩
      exfalso
      rcases List.mem_map.mp hmem with ⟨p, hp, hpx⟩
      rcases List.mem_filter.mp hp with ⟨hpreg, hpc⟩
      obtain ⟨k, u⟩ := p
      subst hpx
      have hu : lookup k reg = some u := lookup_eq_some_of_mem hnd hpreg
      rw [hl] at hu
      obtain rfl := (Option.some.injEq .. ▸ hu)
      simp only [Bool.and_eq_true, decide_eq_true_eq] at hpc
      exact hnc hpc
  · rw [if_neg hmem]
    constructor
    · intro hl
      refine ⟨hl, fun hc => hmem ?_⟩
      refine List.mem_map.mpr ⟨(x, t), List.mem_filter.mpr ⟨mem_of_lookup_eq_some hl, ?_⟩, rfl⟩
      simp only [Bool.and_eq_true, decide_eq_true_eq]
      exact hc
    · rintro ⟨hl, _⟩
      exact hl

/-- Witness for C6 on a three-entry registry: a resolved old entry is
reaped; an unresolved old entry and a resolved young entry survive. -/
theorem cleanup_removes_exactly_resolved_old_witness :
    (lookup "old_done" (cleanup_run
        [("old_done", (TaskResult.init String String "old_done" 0).set_result "r"),
         ("old_pending", TaskResult.init String String "old_pending" 0),
         ("new_done", (TaskResult.init String String "new_done" 90).set_result "r")]
        100 24) = some ((TaskResult.init String String "old_done" 0).set_result "r") ↔
      lookup "old_done"
        [("old_done", (TaskResult.init String String "old_done" 0).set_result "r"),
         ("old_pending", TaskResult.init String String "old_pending" 0),
         ("new_done", (TaskResult.init String String "new_done" 90).set_result "r")]
        = some ((TaskResult.init String String "old_done" 0).set_result "r")
      ∧ ¬(((TaskResult.init String String "old_done" 0).set_result "r").created_at < 100 - 24
          ∧ ((TaskResult.init String String "old_done" 0).set_result "r").completed = true)) :=
  cleanup_removes_exactly_resolved_old
    [("old_done", (TaskResult.init String String "old_done" 0).set_result "r"),
     ("old_pending", TaskResult.init String String "old_pending" 0),
     ("new_done", (TaskResult.init String String "new_done" 90).set_result "r")]
    100 24 (by decide) "old_done" ((TaskResult.init String String "old_done" 0).set_result "r")

/-- C10: the stored error takes precedence over the stored result — after
both `fail(t, err)` and `complete(t, payload)` have been applied, in
either order, every `wait()` raises the error (which is never a
`returned` outcome), because `wait` checks the error field first. -/
theorem error_checked_before_result {V E : Type} (t : TaskResult V E) (v : V) (e : E)
    (timeout : Option Nat) :
    ((t.set_error e).set_result v).wait timeout = WaitOutcome.raised e
    ∧ ((t.set_result v).set_error e).wait timeout = WaitOutcome.raised e
    ∧ ∀ w : Option V, (WaitOutcome.raised e : WaitOutcome V E) ≠ WaitOutcome.returned w := by
  refine ⟨?_, ?_, ?_⟩
  · simp [TaskResult.wait, TaskResult.set_result, TaskResult.set_error]
  · simp [TaskResult.wait, TaskResult.set_result, TaskResult.set_error]
  · intro w hcon
    exact WaitOutcome.noConfusion hcon

/-- C7 counterexample: a POST whose body cannot be parsed into the
payload shape anywhere (auto-parse fails, direct parse fails, no `data`
wrapper) makes the handler raise `HTTPException(400)`, which the
`except HTTPException: raise` arm propagates — not a successful
acknowledgement. -/
theorem malformed_callback_not_acknowledged :
    kie_callback { autoParsed := none, bodyParses := none, hasDataKey := false,
                   dataParses := none } false = KieResponse.httpError 400
    ∧ ∀ s m, KieResponse.httpError 400 ≠ KieResponse.ack s m :=
  ⟨rfl, fun _ _ hcon => KieResponse.noConfusion hcon⟩

/-- C7 amended: a body that cannot be parsed into the expected payload
shape (directly or via the `data` wrapper) receives an HTTP 400 ingress
error; but whenever a payload is obtained, the response is always a 200
acknowledgement — in particular for every exception raised while
processing the callback (and for a missing task id). -/
theorem callback_ack_policy (r : RawKieRequest) (b : Bool) :
    (resolvePayload r = none → kie_callback r b = KieResponse.httpError 400)
    ∧ (∀ p, resolvePayload r = some p → ∃ s m, kie_callback r b = KieResponse.ack s m) := by
  constructor
  · intro h
    simp [kie_callback, h]
  · intro p h
    simp only [kie_callback, h]
    by_cases h1 : pyTruthy (normalizeKieCallback p).task_id = false
    · exact ⟨"error", "Missing taskId in callback", by simp [h1]⟩
    · cases b
      · exact ⟨"success", "Callback processed", by simp [h1]⟩
      · exact ⟨"error", "Error processing callback", by simp [h1]⟩

/-- Witness for C7 amended: a parsed payload whose processing raises is
still acknowledged with a 200 response. -/
theorem callback_ack_policy_witness :
    ∃ s m, kie_callback { autoParsed := some { taskId := some "t1" }, bodyParses := none,
                          hasDataKey := false, dataParses := none } true
      = KieResponse.ack s m :=
  (callback_ack_policy { autoParsed := some { taskId := some "t1" }, bodyParses := none,
                         hasDataKey := false, dataParses := none } true).2
    { taskId := some "t1" } rfl

/-- C8: normalization extracts the same logical values whether every
field arrives in camelCase or in snake_case (for non-empty values); and
for each of the five logical fields separately: the camelCase variant is
preferred whenever truthy (regardless of the snake_case variant and of
the nested wrapper), the snake_case variant is used when the camelCase
one is falsy and it is truthy (again regardless of the wrapper), and the
nested `data` wrapper is consulted — camelCase key first — exactly when
every top-level variant of the field is falsy; `state`, whose name is
identical in both conventions, has the top-level/nested dichotomy only. -/
theorem callback_field_normalization (p : KieCallbackPayload) (d : List (String × String))
    (t s r m c : String) (ht : t ≠ "") (hr : r ≠ "") (hm : m ≠ "") (hc : c ≠ "") :
    (normalizeKieCallback { taskId := some t, state := some s, resultJson := some r,
                            failMsg := some m, failCode := some c }
      = normalizeKieCallback { task_id := some t, state := some s, result_json := some r,
                               fail_msg := some m, fail_code := some c })
    ∧ ((pyTruthy p.taskId = true → (normalizeKieCallback p).task_id = p.taskId)
      ∧ (pyTruthy p.taskId = false → pyTruthy p.task_id = true →
          (normalizeKieCallback p).task_id = p.task_id)
      ∧ (pyTruthy p.taskId = false → pyTruthy p.task_id = false →
          p.data = some d → d ≠ [] →
          (normalizeKieCallback p).task_id
            = pyOr (lookup "taskId" d) (lookup "task_id" d)))
    ∧ ((pyTruthy p.resultJson = true →
          (normalizeKieCallback p).result_json_str = p.resultJson)
      ∧ (pyTruthy p.resultJson = false → pyTruthy p.result_json = true →
          (normalizeKieCallback p).result_json_str = p.result_json)
      ∧ (pyTruthy p.resultJson = false → pyTruthy p.result_json = false →
          p.data = some d → d ≠ [] →
          (normalizeKieCallback p).result_json_str
            = pyOr (lookup "resultJson" d) (lookup "result_json" d)))
    ∧ ((pyTruthy p.failMsg = true → (normalizeKieCallback p).fail_msg = p.failMsg)
      ∧ (pyTruthy p.failMsg = false → pyTruthy p.fail_msg = true →
          (normalizeKieCallback p).fail_msg = p.fail_msg)
      ∧ (pyTruthy p.failMsg = false → pyTruthy p.fail_msg = false →
          p.data = some d → d ≠ [] →
          (normalizeKieCallback p).fail_msg
            = pyOr (lookup "failMsg" d) (lookup "fail_msg" d)))
    ∧ ((pyTruthy p.failCode = true → (normalizeKieCallback p).fail_code = p.failCode)
      ∧ (pyTruthy p.failCode = false → pyTruthy p.fail_code = true →
          (normalizeKieCallback p).fail_code = p.fail_code)
      ∧ (pyTruthy p.failCode = false → pyTruthy p.fail_code = false →
          p.data = some d → d ≠ [] →
          (normalizeKieCallback p).fail_code
            = pyOr (lookup "failCode" d) (lookup "fail_code" d)))
    ∧ ((pyTruthy p.state = true → (normalizeKieCallback p).state = p.state)
      ∧ (pyTruthy p.state = false → p.data = some d → d ≠ [] →
          (normalizeKieCallback p).state = lookup "state" d)) := by
  have hdta : ∀ hdne : d ≠ [], dataTruthy (some d) = true := fun hdne => by
    simp [dataTruthy, hdne]
  refine ⟨?_, ⟨?_, ?_, ?_⟩, ⟨?_, ?_, ?_⟩, ⟨?_, ?_, ?_⟩, ⟨?_, ?_, ?_⟩, ⟨?_, ?_⟩⟩
  · simp [normalizeKieCallback, dataTruthy, pyOr, pyTruthy, ht, hr, hm, hc]
  · intro h1
    cases hdt : dataTruthy p.data <;> simp [normalizeKieCallback, hdt, pyOr_truthy h1]
  · intro h1 h2
    cases hdt : dataTruthy p.data <;>
      simp [normalizeKieCallback, hdt, pyOr_falsy h1, pyOr_truthy h2]
  · intro h1 h2 hd hdne
    simp [normalizeKieCallback, hd, hdta hdne, pyOr_falsy h1, pyOr_falsy h2]
  · intro h1
    cases hdt : dataTruthy p.data <;> simp [normalizeKieCallback, hdt, pyOr_truthy h1]
  · intro h1 h2
    cases hdt : dataTruthy p.data <;>
      simp [normalizeKieCallback, hdt, pyOr_falsy h1, pyOr_truthy h2]
  · intro h1 h2 hd hdne
    simp [normalizeKieCallback, hd, hdta hdne, pyOr_falsy h1, pyOr_falsy h2]
  · intro h1
    cases hdt : dataTruthy p.data <;> simp [normalizeKieCallback, hdt, pyOr_truthy h1]
  · intro h1 h2
    cases hdt : dataTruthy p.data <;>
      simp [normalizeKieCallback, hdt, pyOr_falsy h1, pyOr_truthy h2]
  · intro h1 h2 hd hdne
    simp [normalizeKieCallback, hd, hdta hdne, pyOr_falsy h1, pyOr_falsy h2]
  · intro h1
    cases hdt : dataTruthy p.data <;> simp [normalizeKieCallback, hdt, pyOr_truthy h1]
  · intro h1 h2
    cases hdt : dataTruthy p.data <;>
      simp [normalizeKieCallback, hdt, pyOr_falsy h1, pyOr_truthy h2]
  · intro h1 h2 hd hdne
    simp [normalizeKieCallback, hd, hdta hdne, pyOr_falsy h1, pyOr_falsy h2]
  · intro h1
    cases hdt : dataTruthy p.data <;> simp [normalizeKieCallback, hdt, pyOr_truthy h1]
  · intro h1 hd hdne
    simp [normalizeKieCallback, hd, hdta hdne, pyOr_falsy h1]

/-- Witness for C8 at concrete values, covering every field in every
pattern: an all-camelCase and an all-snake_case payload normalize
identically; on a payload carrying camelCase, snake_case and nested
values for every field, the camelCase value wins for each field; on a
payload carrying only snake_case and nested values, the snake_case value
wins for each field; and on a payload carrying only the nested wrapper,
each field is extracted from the wrapper. -/
theorem callback_field_normalization_witness :
    (normalizeKieCallback { taskId := some "tid", state := some "st",
                            resultJson := some "rj", failMsg := some "fm",
                            failCode := some "fc" }
      = normalizeKieCallback { task_id := some "tid", state := some "st",
                               result_json := some "rj", fail_msg := some "fm",
                               fail_code := some "fc" })
    ∧ (normalizeKieCallback
        { taskId := some "tc", task_id := some "ts", state := some "sc",
          resultJson := some "rc", result_json := some "rs", failMsg := some "mc",
          fail_msg := some "ms", failCode := some "cc", fail_code := some "cs",
          data := some [("taskId", "nt"), ("state", "ns"), ("resultJson", "nr"),
                        ("failMsg", "nm"), ("failCode", "nc")] }).task_id = some "tc"
    ∧ (normalizeKieCallback
        { taskId := some "tc", task_id := some "ts", state := some "sc",
          resultJson := some "rc", result_json := some "rs", failMsg := some "mc",
          fail_msg := some "ms", failCode := some "cc", fail_code := some "cs",
          data := some [("taskId", "nt"), ("state", "ns"), ("resultJson", "nr"),
                        ("failMsg", "nm"), ("failCode", "nc")] }).result_json_str
        = some "rc"
    ∧ (normalizeKieCallback
        { taskId := some "tc", task_id := some "ts", state := some "sc",
          resultJson := some "rc", result_json := some "rs", failMsg := some "mc",
          fail_msg := some "ms", failCode := some "cc", fail_code := some "cs",
          data := some [("taskId", "nt"), ("state", "ns"), ("resultJson", "nr"),
                        ("failMsg", "nm"), ("failCode", "nc")] }).fail_msg = some "mc"
    ∧ (normalizeKieCallback
        { taskId := some "tc", task_id := some "ts", state := some "sc",
          resultJson := some "rc", result_json := some "rs", failMsg := some "mc",
          fail_msg := some "ms", failCode := some "cc", fail_code := some "cs",
          data := some [("taskId", "nt"), ("state", "ns"), ("resultJson", "nr"),
                        ("failMsg", "nm"), ("failCode", "nc")] }).fail_code = some "cc"
    ∧ (normalizeKieCallback
        { taskId := some "tc", task_id := some "ts", state := some "sc",
          resultJson := some "rc", result_json := some "rs", failMsg := some "mc",
          fail_msg := some "ms", failCode := some "cc", fail_code := some "cs",
          data := some [("taskId", "nt"), ("state", "ns"), ("resultJson", "nr"),
                        ("failMsg", "nm"), ("failCode", "nc")] }).state = some "sc"
    ∧ (normalizeKieCallback
        { task_id := some "ts", result_json := some "rs", fail_msg := some "ms",
          fail_code := some "cs",
          data := some [("taskId", "nt"), ("state", "ns"), ("resultJson", "nr"),
                        ("failMsg", "nm"), ("failCode", "nc")] }).task_id = some "ts"
    ∧ (normalizeKieCallback
        { task_id := some "ts", result_json := some "rs", fail_msg := some "ms",
          fail_code := some "cs",
          data := some [("taskId", "nt"), ("state", "ns"), ("resultJson", "nr"),
                        ("failMsg", "nm"), ("failCode", "nc")] }).result_json_str
        = some "rs"
    ∧ (normalizeKieCallback
        { task_id := some "ts", result_json := some "rs", fail_msg := some "ms",
          fail_code := some "cs",
          data := some [("taskId", "nt"), ("state", "ns"), ("resultJson", "nr"),
                        ("failMsg", "nm"), ("failCode", "nc")] }).fail_msg = some "ms"
    ∧ (normalizeKieCallback
        { task_id := some "ts", result_json := some "rs", fail_msg := some "ms",
          fail_code := some "cs",
          data := some [("taskId", "nt"), ("state", "ns"), ("resultJson", "nr"),
                        ("failMsg", "nm"), ("failCode", "nc")] }).fail_code = some "cs"
    ∧ (normalizeKieCallback
        { data := some [("taskId", "nt"), ("state", "ns"), ("resultJson", "nr"),
                        ("failMsg", "nm"), ("failCode", "nc")] }).task_id = some "nt"
    ∧ (normalizeKieCallback
        { data := some [("taskId", "nt"), ("state", "ns"), ("resultJson", "nr"),
                        ("failMsg", "nm"), ("failCode", "nc")] }).result_json_str
        = some "nr"
    ∧ (normalizeKieCallback
        { data := some [("taskId", "nt"), ("state", "ns"), ("resultJson", "nr"),
                        ("failMsg", "nm"), ("failCode", "nc")] }).fail_msg = some "nm"
    ∧ (normalizeKieCallback
        { data := some [("taskId", "nt"), ("state", "ns"), ("resultJson", "nr"),
                        ("failMsg", "nm"), ("failCode", "nc")] }).fail_code = some "nc"
    ∧ (normalizeKieCallback
        { data := some [("taskId", "nt"), ("state", "ns"), ("resultJson", "nr"),
                        ("failMsg", "nm"), ("failCode", "nc")] }).state = some "ns" := by
  have hC := callback_field_normalization
    { taskId := some "tc", task_id := some "ts", state := some "sc",
      resultJson := some "rc", result_json := some "rs", failMsg := some "mc",
      fail_msg := some "ms", failCode := some "cc", fail_code := some "cs",
      data := some [("taskId", "nt"), ("state", "ns"), ("resultJson", "nr"),
                    ("failMsg", "nm"), ("failCode", "nc")] }
    [("taskId", "nt"), ("state", "ns"), ("resultJson", "nr"),
     ("failMsg", "nm"), ("failCode", "nc")]
    "tid" "st" "rj" "fm" "fc" (by decide) (by decide) (by decide) (by decide)
  have hS := callback_field_normalization
    { task_id := some "ts", result_json := some "rs", fail_msg := some "ms",
      fail_code := some "cs",
      data := some [("taskId", "nt"), ("state", "ns"), ("resultJson", "nr"),
                    ("failMsg", "nm"), ("failCode", "nc")] }
    [("taskId", "nt"), ("state", "ns"), ("resultJson", "nr"),
     ("failMsg", "nm"), ("failCode", "nc")]
    "tid" "st" "rj" "fm" "fc" (by decide) (by decide) (by decide) (by decide)
  have hN := callback_field_normalization
    { data := some [("taskId", "nt"), ("state", "ns"), ("resultJson", "nr"),
                    ("failMsg", "nm"), ("failCode", "nc")] }
    [("taskId", "nt"), ("state", "ns"), ("resultJson", "nr"),
     ("failMsg", "nm"), ("failCode", "nc")]
    "tid" "st" "rj" "fm" "fc" (by decide) (by decide) (by decide) (by decide)
  obtain ⟨hE, ⟨hCt, -, -⟩, ⟨hCr, -, -⟩, ⟨hCm, -, -⟩, ⟨hCc, -, -⟩, ⟨hCs, -⟩⟩ := hC
  obtain ⟨-, ⟨-, hSt, -⟩, ⟨-, hSr, -⟩, ⟨-, hSm, -⟩, ⟨-, hSc, -⟩, -⟩ := hS
  obtain ⟨-, ⟨-, -, hNt⟩, ⟨-, -, hNr⟩, ⟨-, -, hNm⟩, ⟨-, -, hNc⟩, ⟨-, hNs⟩⟩ := hN
  exact ⟨hE, hCt (by decide), hCr (by decide), hCm (by decide), hCc (by decide),
    hCs (by decide),
    hSt (by decide) (by decide), hSr (by decide) (by decide), hSm (by decide) (by decide),
    hSc (by decide) (by decide),
    hNt (by decide) (by decide) rfl (by decide), hNr (by decide) (by decide) rfl (by decide),
    hNm (by decide) (by decide) rfl (by decide), hNc (by decide) (by decide) rfl (by decide),
    hNs (by decide) rfl (by decide)⟩

/-- C9: when one of the loopback hosts occurs in the lowercased backend
URL, the callback URL is not publicly reachable: the outbound `createTask` payload
carries no `callBackUrl` and the caller goes straight to polling, never
touching the registry; otherwise the payload carries the callback URL and
the first completion step is the registry wait. -/
theorem dual_path_callback_url (backend_url cb_url : String) (wt : Bool) :
    ((["localhost", "127.0.0.1", "0.0.0.0"].any
        (fun host => strContains (pyLower backend_url) host)) = true →
      use_callback backend_url = false
      ∧ (buildCreateTaskPayload (use_callback backend_url) cb_url).callBackUrl = none
      ∧ completionSteps (use_callback backend_url) wt = [CompletionStep.pollStep])
    ∧ ((["localhost", "127.0.0.1", "0.0.0.0"].any
        (fun host => strContains (pyLower backend_url) host)) = false →
      use_callback backend_url = true
      ∧ (buildCreateTaskPayload (use_callback backend_url) cb_url).callBackUrl = some cb_url
      ∧ (completionSteps (use_callback backend_url) wt).head?
          = some CompletionStep.registryWaitStep) := by
  constructor
  · intro h
    have hu : use_callback backend_url = false := by simp [use_callback, h]
    exact ⟨hu, by simp [buildCreateTaskPayload, hu], by simp [completionSteps, hu]⟩
  · intro h
    have hu : use_callback backend_url = true := by simp [use_callback, h]
    refine ⟨hu, by simp [buildCreateTaskPayload, hu], ?_⟩
    cases wt <;> simp [completionSteps, hu]

/-- Witness for C9 at the loopback URL the source warns about and at a
public Railway URL. -/
theorem dual_path_callback_url_witness :
    (use_callback "http://localhost:8000" = false
      ∧ (buildCreateTaskPayload (use_callback "http://localhost:8000")
          "http://localhost:8000/api/webhooks/kie-callback").callBackUrl = none
      ∧ completionSteps (use_callback "http://localhost:8000") false
          = [CompletionStep.pollStep])
    ∧ (use_callback "https://app.up.railway.app" = true
      ∧ (buildCreateTaskPayload (use_callback "https://app.up.railway.app")
          "https://app.up.railway.app/api/webhooks/kie-callback").callBackUrl
          = some "https://app.up.railway.app/api/webhooks/kie-callback"
      ∧ (completionSteps (use_callback "https://app.up.railway.app") true).head?
          = some CompletionStep.registryWaitStep) :=
  ⟨(dual_path_callback_url "http://localhost:8000"
      "http://localhost:8000/api/webhooks/kie-callback" false).1 (by decide),
   (dual_path_callback_url "https://app.up.railway.app"
      "https://app.up.railway.app/api/webhooks/kie-callback" true).2 (by decide)⟩

end VG
